import Mathlib

/-
Verification of the entomb repository's core logic: the record codec
(utilities.build_data_file_contents), the shadow store
(processing._create_data_files, processing._delete_data_directory),
the entombment state machine (processing._process_object,
processing.process_objects) and the consistency auditor
(checking.check_files).

The filesystem state relevant to a single target file is modelled per
directory: the target file's immutability flag, the record sub-directory
".entomb/hashes/<name>" holding its data files, the ".entomb/hashes" and
".entomb" directories, and the ".entomb/logs" log entries.  Mutating
operations additionally emit a trace of events so that ordering claims
can be stated.  External collaborators (the content digest and the
clock) are passed in as parameters.
-/

namespace Entomb

/-! ## Constants (src/entomb/constants.py) -/

def ENTOMB_DIRECTORY_NAME : String := ".entomb"

def HASHES_DIRECTORY_NAME : String := "hashes"

def HASH_FILES_PER_FILE : Nat := 3

def LOGS_DIRECTORY_NAME : String := "logs"

def ADDED : String := "ADDED"

def REMOVED : String := "REMOVED"

/-- Modelled from the spec: processing.py and checking.py reference
`constants.DATA_DIRECTORY_NAME`, which is not defined in constants.py
(constants.py defines `HASHES_DIRECTORY_NAME = "hashes"` instead); the
spec's reserved shadow data directory is taken to be that directory. -/
def DATA_DIRECTORY_NAME : String := HASHES_DIRECTORY_NAME

/-- Modelled from the spec: processing.py references
`constants.DATA_FILES_PER_FILE`, which is not defined in constants.py
(constants.py defines `HASH_FILES_PER_FILE = 3` instead); the spec fixes
the redundancy as R=3. -/
def DATA_FILES_PER_FILE : Nat := HASH_FILES_PER_FILE

/-! ## Record codec (src/entomb/utilities.py) -/

/-- The attributes of a target file that the record codec reads:
its base name, its formatted modification time, its size in bytes and
its byte content (a string, as the digest input). -/
structure FileMeta where
  name : String
  mtime : String
  size : Nat
  content : String
deriving DecidableEq

/-- A JSON value as used by the record dictionary: the record holds
string fields and the integer `file_size` field. -/
inductive Jval where
  | str (s : String)
  | num (n : Nat)
deriving DecidableEq

/-- utilities._get_checksum: the digest of the file's content prefixed
with the hash algorithm's name.  The digest computation itself is the
external Content Digest collaborator, passed in as `digest`. -/
def get_checksum (digest : String → String) (content : String) : String :=
  "sha512-" ++ digest content

/-- The dictionary assembled by utilities.build_data_file_contents, in
insertion order. -/
def data_dict (digest : String → String) (m : FileMeta)
    (checksum_time : String) : List (String × Jval) :=
  [("file", Jval.str m.name),
   ("file_mtime", Jval.str m.mtime),
   ("file_size", Jval.num m.size),
   ("checksum", Jval.str (get_checksum digest m.content)),
   ("checksum_time", Jval.str checksum_time)]

/-- Serialization of a single JSON value.  Field strings are assumed to
need no escaping (names and timestamps contain no quotes). -/
def jval_dumps : Jval → String
  | Jval.str s => "\"" ++ s ++ "\""
  | Jval.num n => toString n

/-- json.dumps(data, indent=4) for a flat object: keys in insertion
order, four-space indent, one field per line. -/
def json_dumps_indent4 (l : List (String × Jval)) : String :=
  "\x7b\n"
    ++ String.intercalate ",\n"
        (l.map (fun p => "    \"" ++ p.1 ++ "\": " ++ jval_dumps p.2))
    ++ "\n\x7d"

/-- utilities.build_data_file_contents: build the canonical record text
for a file.  `checksum_time` is optional; a missing (or falsy, i.e.
empty) value is replaced by the current time `now`. -/
def build_data_file_contents (digest : String → String) (now : String)
    (m : FileMeta) (checksum_time : Option String) : String :=
  let ct : String :=
    match checksum_time with
    | none => now
    | some t => if t = "" then now else t
  json_dumps_indent4 (data_dict digest m ct)

/-- Scan a character list for the first occurrence of `pat` and return
what follows it. -/
def extract_after (pat : List Char) : List Char → Option (List Char)
  | [] => none
  | c :: rest =>
    if pat.isPrefixOf (c :: rest) then some ((c :: rest).drop pat.length)
    else extract_after pat rest

/-- json.loads(contents)["checksum_time"] as applied to canonical record
text: extract the string value of the checksum_time field.  Returns none
when the field is absent (modelling the json.loads/KeyError failure). -/
def json_checksum_time (s : String) : Option String :=
  match extract_after ("\"checksum_time\": \"").toList s.toList with
  | some rest => some (String.mk (rest.takeWhile (fun c => c ≠ '"')))
  | none => none

/-! ## Filesystem state for one target file -/

/-- One data (record) file in the shadow sub-directory: its text
content, whether chmod 0o444 has been applied, whether the immutable
attribute is set, and whether the attribute can be read (lsattr
succeeds). -/
structure DataFile where
  contents : String
  mode444 : Bool
  immutable : Bool
  flagReadable : Bool
deriving DecidableEq

/-- The state of one directory as seen by the state machine, projected
onto a single target file: the target's immutability flag and metadata,
the listing of ".entomb/hashes/<name>" (none when that sub-directory
does not exist), the number of other entries in ".entomb/hashes",
existence of ".entomb/hashes", ".entomb/logs" and ".entomb" themselves,
the log entries, and whether lsattr/chattr succeed on this file. -/
structure DirState where
  flag : Bool
  meta : FileMeta
  subdir : Option (List (String × DataFile))
  hashesOther : Nat
  hashesDirExists : Bool
  logsDirExists : Bool
  logEntries : List String
  entombDirExists : Bool
  flagReadable : Bool
  flagSettable : Bool
deriving DecidableEq

/-- Whether ".entomb/hashes" is empty: the target's record sub-directory
is gone and no other file's sub-directory remains. -/
def DirState.hashesEmpty (st : DirState) : Bool :=
  st.subdir.isNone && st.hashesOther == 0

/-- Whether ".entomb" is empty: neither "hashes" nor "logs" exists. -/
def DirState.entombEmpty (st : DirState) : Bool :=
  !st.hashesDirExists && !st.logsDirExists

/-- Observable filesystem mutations, recorded as a trace. -/
inductive Event where
  | setFlag (b : Bool)
  | writeData (name : String) (contents : String)
  | chmodData (name : String)
  | setDataImmutable (name : String) (b : Bool)
  | removeTree
  | logWrite (entry : String)
deriving DecidableEq

/-- The exceptions the modelled code can raise.  The three bare
`raise Exception` sites in processing.py and checking.py are
distinguished by site. -/
inductive Err where
  | getAttributeError
  | setAttributeError
  | assertionError
  | fileNotFoundError
  | jsonError
  | genericCreate
  | genericCheckImmutable
  | genericCheckMutable
  | genericNoContents
  | genericMultipleContents
deriving DecidableEq

/-! ## Entombment state machine (src/entomb/processing.py) -/

/-- utilities.file_is_immutable applied to the target file: read the
immutability flag, raising GetAttributeError when lsattr fails. -/
def file_is_immutable (st : DirState) : Except Err Bool :=
  if st.flagReadable then Except.ok st.flag
  else Except.error Err.getAttributeError

/-- processing._set_attribute applied to the target file: run
"chattr +i" or "chattr -i", raising SetAttributeError on failure. -/
def set_flag (b : Bool) (st : DirState) : Except Err (DirState × List Event) :=
  if st.flagSettable then Except.ok ({ st with flag := b }, [Event.setFlag b])
  else Except.error Err.setAttributeError

/-- processing._get_data_file_paths: the canonical data file names
"<name>.data.1" .. "<name>.data.R" (paths are directory-local here). -/
def data_file_names (filename : String) : List String :=
  (List.range DATA_FILES_PER_FILE).map
    (fun i => filename ++ ".data." ++ toString (i + 1))

/-- The per-file loop of processing._create_data_files: for each data
file name, write the contents, chmod 0o444, then set the immutable
attribute, in that order.  chattr failure raises SetAttributeError. -/
def create_files_loop (contents : String) (settable : Bool) :
    List String → Except Err (List (String × DataFile) × List Event)
  | [] => Except.ok ([], [])
  | n :: rest =>
    if settable then
      match create_files_loop contents settable rest with
      | Except.error e => Except.error e
      | Except.ok (files, evs) =>
        Except.ok
          ((n, ⟨contents, true, true, true⟩) :: files,
           [Event.writeData n contents, Event.chmodData n,
            Event.setDataImmutable n true] ++ evs)
    else Except.error Err.setAttributeError

/-- processing._create_data_files: ensure ".entomb/hashes/<name>"
exists (os.makedirs with exist_ok), refuse if it already holds files
(the bare `raise Exception` site), then write the R data files. -/
def _create_data_files (digest : String → String) (now : String)
    (st : DirState) : Except Err (DirState × List Event) :=
  let st1 : DirState :=
    { st with entombDirExists := true, hashesDirExists := true,
              subdir := some (st.subdir.getD []) }
  let existing := st1.subdir.getD []
  if existing.isEmpty then
    let contents := build_data_file_contents digest now st1.meta none
    match create_files_loop contents st1.flagSettable
        (data_file_names st1.meta.name) with
    | Except.error e => Except.error e
    | Except.ok (files, evs) => Except.ok ({ st1 with subdir := some files }, evs)
  else Except.error Err.genericCreate

/-- processing._delete_data_directory: walk the record sub-directory
making every data file mutable, shutil.rmtree the sub-directory (which
raises FileNotFoundError when it does not exist), then remove
".entomb/hashes" and ".entomb" when they are now empty
(processing._delete_directory_if_empty, whose isdir assertion is the
assertionError case). -/
def _delete_data_directory (st : DirState) :
    Except Err (DirState × List Event) :=
  let files := (st.subdir.getD []).map Prod.fst
  if st.flagSettable = false ∧ files ≠ [] then
    Except.error Err.setAttributeError
  else
    let unlockEvents := files.map (fun n => Event.setDataImmutable n false)
    match st.subdir with
    | none => Except.error Err.fileNotFoundError
    | some _ =>
      let st1 : DirState := { st with subdir := none }
      if st1.hashesDirExists = false then Except.error Err.assertionError
      else
        let st2 : DirState :=
          if st1.hashesEmpty then { st1 with hashesDirExists := false }
          else st1
        if st2.entombDirExists = false then Except.error Err.assertionError
        else
          let st3 : DirState :=
            if st2.entombEmpty then { st2 with entombDirExists := false }
            else st2
          Except.ok (st3, unlockEvents ++ [Event.removeTree])

/-- The per-file loop of processing._check_data_files for an immutable
file: open each canonical data file (FileNotFoundError when missing),
extract its checksum_time, rebuild the expected contents, and raise the
bare-Exception site on mismatch. -/
def check_loop (digest : String → String) (now : String) (m : FileMeta)
    (sub : List (String × DataFile)) :
    List String → Except Err Unit
  | [] => Except.ok ()
  | n :: rest =>
    match List.lookup n sub with
    | none => Except.error Err.fileNotFoundError
    | some df =>
      match json_checksum_time df.contents with
      | none => Except.error Err.jsonError
      | some ct =>
        let expected := build_data_file_contents digest now m (some ct)
        if df.contents = expected then check_loop digest now m sub rest
        else Except.error Err.genericCheckImmutable

/-- processing._check_data_files: for an immutable file every canonical
data file must match the record rebuilt with its stored checksum_time;
for a mutable file the record sub-directory must not exist (each failure
is a distinct bare `raise Exception` site). -/
def _check_data_files (digest : String → String) (now : String)
    (st : DirState) (is_immutable : Bool) : Except Err Unit :=
  if is_immutable then
    check_loop digest now st.meta (st.subdir.getD [])
      (data_file_names st.meta.name)
  else
    if st.subdir.isSome then Except.error Err.genericCheckMutable
    else Except.ok ()

/-- One line of the action log, as built by processing._write_to_log. -/
def log_entry (timestamp action filename : String) : String :=
  timestamp ++ " | " ++ action ++ " | " ++ filename ++ "\n"

/-- processing._write_to_log: ensure ".entomb/logs" exists and append
the entry to the daily log file. -/
def _write_to_log (now : String) (action : String) (st : DirState) :
    DirState × List Event :=
  ({ st with entombDirExists := true, logsDirExists := true,
             logEntries := st.logEntries ++ [log_entry now action st.meta.name] },
   [Event.logWrite (log_entry now action st.meta.name)])

/-- processing._process_object: read the flag (re-raising
GetAttributeError as SetAttributeError), validate the data files
against the current flag, and when a change is needed and this is not a
dry run either entomb (set flag, create data files, log ADDED) or
unentomb (unset flag, delete data directory, log REMOVED).  Returns
whether a change was (or would be) made, the new state and the trace. -/
def _process_object (digest : String → String) (now : String)
    (st : DirState) (immutable dry_run : Bool) :
    Except Err (Bool × DirState × List Event) :=
  match (match file_is_immutable st with
         | Except.ok b => Except.ok b
         | Except.error _ => Except.error Err.setAttributeError :
          Except Err Bool) with
  | Except.error e => Except.error e
  | Except.ok is_immutable =>
    match _check_data_files digest now st is_immutable with
    | Except.error e => Except.error e
    | Except.ok _ =>
      let change_attribute := immutable != is_immutable
      if change_attribute && !dry_run then
        if immutable then
          match set_flag true st with
          | Except.error e => Except.error e
          | Except.ok (st1, ev1) =>
            match _create_data_files digest now st1 with
            | Except.error e => Except.error e
            | Except.ok (st2, ev2) =>
              let r := _write_to_log now ADDED st2
              Except.ok (change_attribute, r.1, ev1 ++ ev2 ++ r.2)
        else
          match set_flag false st with
          | Except.error e => Except.error e
          | Except.ok (st1, ev1) =>
            match _delete_data_directory st1 with
            | Except.error e => Except.error e
            | Except.ok (st2, ev2) =>
              let r := _write_to_log now REMOVED st2
              Except.ok (change_attribute, r.1, ev1 ++ ev2 ++ r.2)
      else Except.ok (change_attribute, st, [])

/-! ## Batch processing (processing.process_objects) -/

/-- One entry yielded by utilities.file_paths: a link, or a regular
file together with its directory state. -/
inductive PathObj where
  | link
  | file (st : DirState)

/-- The counters and error list accumulated by
processing.process_objects. -/
structure ProcSummary where
  attribute_changed_count : Nat
  attribute_settable_count : Nat
  errors : List Err
  file_count : Nat
  link_count : Nat
deriving DecidableEq

/-- The all-zero initial summary. -/
def initSummary : ProcSummary := ⟨0, 0, [], 0, 0⟩

/-- The walk loop of processing.process_objects: links are counted;
for files _process_object is attempted, with only SetAttributeError
caught and collected — any other exception propagates and aborts the
whole run. -/
def process_objects_from (digest : String → String) (now : String)
    (immutable dry_run : Bool) :
    List PathObj → ProcSummary → Except Err ProcSummary
  | [], acc => Except.ok acc
  | PathObj.link :: rest, acc =>
    process_objects_from digest now immutable dry_run rest
      { acc with link_count := acc.link_count + 1 }
  | PathObj.file st :: rest, acc =>
    match _process_object digest now st immutable dry_run with
    | Except.ok (changed, _, _) =>
      process_objects_from digest now immutable dry_run rest
        { acc with
          attribute_settable_count := acc.attribute_settable_count + 1,
          attribute_changed_count :=
            acc.attribute_changed_count + (if changed then 1 else 0),
          file_count := acc.file_count + 1 }
    | Except.error Err.setAttributeError =>
      process_objects_from digest now immutable dry_run rest
        { acc with errors := acc.errors ++ [Err.setAttributeError],
                   file_count := acc.file_count + 1 }
    | Except.error e => Except.error e

/-- processing.process_objects starting from the zero summary. -/
def process_objects (digest : String → String) (now : String)
    (immutable dry_run : Bool) (objs : List PathObj) :
    Except Err ProcSummary :=
  process_objects_from digest now immutable dry_run objs initSummary

/-! ## Consistency auditor (src/entomb/checking.py) -/

/-- A non-directory entry of a walked directory (an element of the
walk's `filenames`): its metadata, whether it is a symbolic link, and
its immutability flag together with whether lsattr succeeds on it. -/
structure AuditFile where
  meta : FileMeta
  isLink : Bool
  flagReadable : Bool
  flag : Bool
deriving DecidableEq

/-- The error messages check_files appends, keyed by their raise site
and carrying the offending name. -/
inductive AuditError where
  | orphanSubdirectory (name : String)
  | shouldBeImmutable (name : String)
  | missingDataSubdirectory (name : String)
  | dataFileNotImmutable (name : String)
  | dataFileNotReadOnly (name : String)
  | contentsMismatch
deriving DecidableEq

/-- The classification of one regular file by the auditor. -/
inductive FileOutcome where
  | entombed
  | unentombed
  | withErrors (es : List AuditError)
deriving DecidableEq

/-- One walked directory: whether ".entomb" is among its entries, the
listing of ".entomb/hashes" (each record sub-directory name with its
data files; none when ".entomb" exists but ".entomb/hashes" does not,
in which case os.listdir raises), and its non-directory entries. -/
structure AuditDirectory where
  entombPresent : Bool
  hashesListing : Option (List (String × List (String × DataFile)))
  files : List AuditFile
deriving DecidableEq

/-- The counters and error list accumulated by checking.check_files. -/
structure AuditCounts where
  directory_count : Nat
  entombed_file_count : Nat
  errors : List AuditError
  files_with_errors_count : Nat
  inaccessible_file_count : Nat
  link_count : Nat
  unentombed_file_count : Nat
deriving DecidableEq

/-- The all-zero initial counts. -/
def initCounts : AuditCounts := ⟨0, 0, [], 0, 0, 0, 0⟩

/-- utilities.file_is_immutable applied to an audited file; a failing
lsattr raises GetAttributeError, which check_files does not catch. -/
def audit_file_is_immutable (f : AuditFile) : Except Err Bool :=
  if f.flagReadable then Except.ok f.flag
  else Except.error Err.getAttributeError

/-- The data-file permission loop of
checking._get_data_subdirectory_errors: each data file must be
immutable (lsattr failures propagate) and have mode 0o444. -/
def perm_check_loop (name : String) :
    List (String × DataFile) → Except Err (List AuditError)
  | [] => Except.ok []
  | (_, df) :: rest =>
    if df.flagReadable = false then Except.error Err.getAttributeError
    else
      match perm_check_loop name rest with
      | Except.error e => Except.error e
      | Except.ok es =>
        Except.ok
          ((if df.immutable = false then [AuditError.dataFileNotImmutable name]
            else [])
           ++ (if df.mode444 = false then [AuditError.dataFileNotReadOnly name]
               else [])
           ++ es)

/-- checking._get_data_file_contents: collect the set of distinct data
file contents; exactly one distinct value is returned, zero or several
raise the corresponding bare-Exception site. -/
def _get_data_file_contents (dataFiles : List (String × DataFile)) :
    Except Err String :=
  match (dataFiles.map (fun p => p.2.contents)).dedup with
  | [c] => Except.ok c
  | [] => Except.error Err.genericNoContents
  | _ => Except.error Err.genericMultipleContents

/-- checking._get_data_subdirectory_errors: list the record
sub-directory (checking's own _get_data_file_paths, which lists the
actual directory and raises when it is missing), check each data file's
immutability and mode, then compare the common contents against the
record rebuilt with the stored checksum_time. -/
def _get_data_subdirectory_errors (digest : String → String) (now : String)
    (subdirs : List (String × List (String × DataFile)))
    (f : AuditFile) : Except Err (List AuditError) :=
  match List.lookup f.meta.name subdirs with
  | none => Except.error Err.fileNotFoundError
  | some dataFiles =>
    match perm_check_loop f.meta.name dataFiles with
    | Except.error e => Except.error e
    | Except.ok permErrors =>
      match _get_data_file_contents dataFiles with
      | Except.error e => Except.error e
      | Except.ok actual =>
        match json_checksum_time actual with
        | none => Except.error Err.jsonError
        | some ct =>
          let expected := build_data_file_contents digest now f.meta (some ct)
          Except.ok
            (permErrors
             ++ (if actual ≠ expected then [AuditError.contentsMismatch]
                 else []))

/-- The regular-file branch of checking.check_files: classify one file
by whether it has a record sub-directory and whether it is immutable. -/
def audit_file (digest : String → String) (now : String)
    (subdirs : List (String × List (String × DataFile)))
    (f : AuditFile) : Except Err FileOutcome :=
  let has_data_subdirectory := (subdirs.map Prod.fst).contains f.meta.name
  match audit_file_is_immutable f with
  | Except.error e => Except.error e
  | Except.ok is_immutable =>
    if has_data_subdirectory && !is_immutable then
      Except.ok (FileOutcome.withErrors [AuditError.shouldBeImmutable f.meta.name])
    else if is_immutable && !has_data_subdirectory then
      Except.ok
        (FileOutcome.withErrors [AuditError.missingDataSubdirectory f.meta.name])
    else if is_immutable && has_data_subdirectory then
      match _get_data_subdirectory_errors digest now subdirs f with
      | Except.error e => Except.error e
      | Except.ok es =>
        if es ≠ [] then Except.ok (FileOutcome.withErrors es)
        else Except.ok FileOutcome.entombed
    else Except.ok FileOutcome.unentombed

/-- The filename loop of checking.check_files: count links, classify
files, collect errors; exceptions propagate and abort the audit. -/
def audit_files_loop (digest : String → String) (now : String)
    (subdirs : List (String × List (String × DataFile))) :
    List AuditFile → AuditCounts → Except Err AuditCounts
  | [], acc => Except.ok acc
  | f :: rest, acc =>
    if f.isLink then
      audit_files_loop digest now subdirs rest
        { acc with link_count := acc.link_count + 1 }
    else
      match audit_file digest now subdirs f with
      | Except.error e => Except.error e
      | Except.ok FileOutcome.entombed =>
        audit_files_loop digest now subdirs rest
          { acc with entombed_file_count := acc.entombed_file_count + 1 }
      | Except.ok FileOutcome.unentombed =>
        audit_files_loop digest now subdirs rest
          { acc with unentombed_file_count := acc.unentombed_file_count + 1 }
      | Except.ok (FileOutcome.withErrors es) =>
        audit_files_loop digest now subdirs rest
          { acc with errors := acc.errors ++ es,
                     files_with_errors_count := acc.files_with_errors_count + 1 }

/-- The directory body of checking.check_files: list ".entomb/hashes"
when ".entomb" is present (os.listdir raising when "hashes" itself is
missing), count the directory, flag record sub-directories with no
matching entry in the walk's `filenames` (which includes links), then
examine every non-directory entry. -/
def audit_directory (digest : String → String) (now : String)
    (d : AuditDirectory) (acc : AuditCounts) : Except Err AuditCounts :=
  match (if d.entombPresent then
           match d.hashesListing with
           | some l => Except.ok l
           | none => Except.error Err.fileNotFoundError
         else Except.ok [] :
          Except Err (List (String × List (String × DataFile)))) with
  | Except.error e => Except.error e
  | Except.ok subdirs =>
    let acc1 : AuditCounts :=
      { acc with directory_count := acc.directory_count + 1 }
    let orphans := (subdirs.map Prod.fst).filter
        (fun s => !((d.files.map (fun f => f.meta.name)).contains s))
    let acc2 : AuditCounts :=
      { acc1 with errors := acc1.errors ++ orphans.map AuditError.orphanSubdirectory }
    audit_files_loop digest now subdirs d.files acc2

/-- The tree walk of checking.check_files over a sequence of walked
directories. -/
def check_files_from (digest : String → String) (now : String) :
    List AuditDirectory → AuditCounts → Except Err AuditCounts
  | [], acc => Except.ok acc
  | d :: rest, acc =>
    match audit_directory digest now d acc with
    | Except.error e => Except.error e
    | Except.ok acc1 => check_files_from digest now rest acc1

/-- checking.check_files starting from the zero counts. -/
def check_files (digest : String → String) (now : String)
    (dirs : List AuditDirectory) : Except Err AuditCounts :=
  check_files_from digest now dirs initCounts

/-! ## Helper lemmas -/

theorem data_file_names_eq (nm : String) :
    data_file_names nm =
      [nm ++ ".data." ++ "1", nm ++ ".data." ++ "2", nm ++ ".data." ++ "3"] := by
  rfl

theorem string_append_left_cancel {s a b : String} (h : s ++ a = s ++ b) :
    a = b := by
  cases s with
  | mk l =>
    cases a with
    | mk la =>
      cases b with
      | mk lb =>
        simp only [String.ext_iff] at h ⊢
        have h2 : l ++ la = l ++ lb := by simpa [String.append] using h
        exact List.append_cancel_left h2

theorem lookup_const_map {β : Type} (df : β) (names : List String)
    (n : String) (h : n ∈ names) :
    List.lookup n (names.map (fun x => (x, df))) = some df := by
  induction names with
  | nil => cases h
  | cons x rest ih =>
    by_cases hx : n = x
    · simp [List.lookup, hx]
    · have hr : n ∈ rest := by
        rcases List.mem_cons.mp h with h1 | h1
        · exact absurd h1 hx
        · exact h1
      simp [List.lookup, beq_false_of_ne hx, ih hr]

theorem build_none_eq (digest : String → String) (now : String)
    (m : FileMeta) :
    build_data_file_contents digest now m none =
      json_dumps_indent4 (data_dict digest m now) := rfl

theorem build_some_eq (digest : String → String) (now : String)
    (m : FileMeta) {t : String} (ht : t ≠ "") :
    build_data_file_contents digest now m (some t) =
      json_dumps_indent4 (data_dict digest m t) := by
  simp [build_data_file_contents, ht]

/-- Creating data files from a missing or empty record sub-directory
succeeds and produces the three canonical record files together with
the write/chmod/set-immutable trace. -/
theorem create_data_files_spec (digest : String → String) (now : String)
    (st : DirState)
    (h0 : st.subdir = none ∨ st.subdir = some [])
    (hs : st.flagSettable = true) :
    _create_data_files digest now st =
      Except.ok
        ({ st with entombDirExists := true, hashesDirExists := true,
                   subdir := some ((data_file_names st.meta.name).map
                     (fun n =>
                       (n, ⟨build_data_file_contents digest now st.meta none,
                            true, true, true⟩))) },
         (data_file_names st.meta.name).flatMap
           (fun n =>
             [Event.writeData n (build_data_file_contents digest now st.meta none),
              Event.chmodData n, Event.setDataImmutable n true])) := by
  rcases h0 with h | h <;>
    simp [_create_data_files, h, hs, data_file_names_eq, create_files_loop] <;>
    exact ⟨rfl, rfl, rfl⟩

/-! ## Concrete instances used by witnesses and counterexamples -/

/-- A concrete stand-in for the external Content Digest collaborator. -/
def digest0 : String → String := fun s => s

/-- A concrete target file. -/
def meta0 : FileMeta := ⟨"a.txt", "2020-01-01T00:00:00+0000", 5, "hello"⟩

/-- A concrete directory state whose record sub-directory does not
exist (the group is absent) although ".entomb/hashes" itself exists. -/
def st_c3 : DirState := ⟨false, meta0, none, 0, true, false, [], true, true, true⟩

/-- A concrete directory state in the Free state. -/
def st_free : DirState := ⟨false, meta0, none, 0, false, false, [], false, true, true⟩

/-! ## Claims -/

/-- C2: for a file whose shadow record directory does not yet exist or
is empty, the create step of entombment writes exactly R=3 record
files, all with the same contents, and for each file the trace is
write, then chmod 0o444, then set immutable, in that order. -/
theorem c2_create_data_files (digest : String → String) (now : String)
    (st : DirState)
    (h0 : st.subdir = none ∨ st.subdir = some [])
    (hs : st.flagSettable = true) :
    _create_data_files digest now st =
      Except.ok
        ({ st with entombDirExists := true, hashesDirExists := true,
                   subdir := some ((data_file_names st.meta.name).map
                     (fun n =>
                       (n, ⟨build_data_file_contents digest now st.meta none,
                            true, true, true⟩))) },
         (data_file_names st.meta.name).flatMap
           (fun n =>
             [Event.writeData n (build_data_file_contents digest now st.meta none),
              Event.chmodData n, Event.setDataImmutable n true])) ∧
    (data_file_names st.meta.name).length = DATA_FILES_PER_FILE ∧
    DATA_FILES_PER_FILE = 3 :=
  ⟨create_data_files_spec digest now st h0 hs,
   by rw [data_file_names_eq]; rfl, rfl⟩

/-- C2 witness: the create step applied to a concrete Free-state file. -/
theorem c2_witness :
    _create_data_files digest0 "t" st_free =
      Except.ok
        ({ st_free with entombDirExists := true, hashesDirExists := true,
                        subdir := some ((data_file_names st_free.meta.name).map
                          (fun n =>
                            (n, ⟨build_data_file_contents digest0 "t" st_free.meta none,
                                 true, true, true⟩))) },
         (data_file_names st_free.meta.name).flatMap
           (fun n =>
             [Event.writeData n (build_data_file_contents digest0 "t" st_free.meta none),
              Event.chmodData n, Event.setDataImmutable n true])) ∧
    (data_file_names st_free.meta.name).length = DATA_FILES_PER_FILE ∧
    DATA_FILES_PER_FILE = 3 :=
  c2_create_data_files digest0 "t" st_free (Or.inl rfl) rfl

/-- C3 counterexample: the claim says Shadow Store delete never fails
when the redundancy group does not exist; on this concrete state with
no record sub-directory, _delete_data_directory raises
FileNotFoundError (shutil.rmtree on a missing directory). -/
theorem c3_counterexample :
    _delete_data_directory st_c3 = Except.error Err.fileNotFoundError := rfl

/-- C3 amended: whenever the record sub-directory for the file does not
exist, Shadow Store delete fails with FileNotFoundError rather than
being an idempotent no-op. -/
theorem c3_amended_delete_raises (st : DirState) (h : st.subdir = none) :
    _delete_data_directory st = Except.error Err.fileNotFoundError := by
  simp [_delete_data_directory, h]

/-- C3 witness: the amended statement at the concrete absent-group
state. -/
theorem c3_witness :
    _delete_data_directory st_c3 = Except.error Err.fileNotFoundError :=
  c3_amended_delete_raises st_c3 rfl

/-- C6: for a file in a valid current state, a dry-run transition
returns change_needed = (want_tombed != current flag), leaves the state
unchanged and emits no filesystem event and no log entry. -/
theorem c6_dry_run_frame (digest : String → String) (now : String)
    (st : DirState) (want : Bool)
    (hr : st.flagReadable = true)
    (hv : _check_data_files digest now st st.flag = Except.ok ()) :
    _process_object digest now st want true =
      Except.ok ((want != st.flag), st, []) := by
  simp [_process_object, file_is_immutable, hr, hv]

/-- C6 witness: a dry-run entomb of a concrete Free-state file reports
a needed change and mutates nothing. -/
theorem c6_witness :
    _process_object digest0 "t" st_free true true =
      Except.ok (true, st_free, []) :=
  c6_dry_run_frame digest0 "t" st_free true rfl rfl

/-- C9 counterexample: the claim says the record's fields are
file_name, file_mtime, file_size, checksum, checksum_time; on a
concrete build the keys are file (not file_name), file_mtime,
file_size, checksum, checksum_time, as the serialized record text
shows. -/
theorem c9_counterexample :
    ((data_dict digest0 meta0 "t").map Prod.fst).contains "file_name" = false ∧
    (data_dict digest0 meta0 "t").map Prod.fst =
      ["file", "file_mtime", "file_size", "checksum", "checksum_time"] ∧
    build_data_file_contents digest0 "x" meta0 (some "t") =
      "\x7b\n    \"file\": \"a.txt\",\n    \"file_mtime\": \"2020-01-01T00:00:00+0000\",\n    \"file_size\": 5,\n    \"checksum\": \"sha512-hello\",\n    \"checksum_time\": \"t\"\n\x7d" :=
  ⟨rfl, rfl, rfl⟩

/-- A concrete directory state violating the precondition for a
mutable file: the flag is unset but a record sub-directory exists. -/
def st_badsub : DirState :=
  ⟨false, meta0, some [("a.txt.data.1", ⟨"c", true, true, true⟩)],
   0, true, false, [], true, true, true⟩

/-- A concrete directory state whose immutability flag cannot be read. -/
def st_unreadable : DirState :=
  ⟨false, meta0, none, 0, false, false, [], false, false, true⟩

/-- A concrete directory state whose immutability flag cannot be set. -/
def st_unsettable : DirState :=
  ⟨false, meta0, none, 0, false, false, [], false, true, false⟩

/-- C4 counterexample: the claim says a PreconditionViolation is
recorded and the batch continues; on this concrete batch the first
file's precondition violation (mutable file with an existing record
sub-directory) raises a bare Exception that process_objects does not
catch, aborting the run before the second (healthy) file is reached. -/
theorem c4_counterexample :
    process_objects digest0 "t" true false
        [PathObj.file st_badsub, PathObj.file st_free] =
      Except.error Err.genericCheckMutable := rfl

/-- C4 amended: in batch transitions a FlagUnreadable or FlagUnsettable
failure is recorded as a per-file SetAttributeError and processing
continues with the remaining files, but a PreconditionViolation (a bare
Exception from _check_data_files) is not caught and aborts the whole
run. -/
theorem c4_amended_fail_soft (digest : String → String) (now : String)
    (imm dry : Bool) (rest : List PathObj) (acc : ProcSummary)
    (st : DirState) :
    (st.flagReadable = false →
      process_objects_from digest now imm dry (PathObj.file st :: rest) acc =
        process_objects_from digest now imm dry rest
          { acc with errors := acc.errors ++ [Err.setAttributeError],
                     file_count := acc.file_count + 1 }) ∧
    (st.flagReadable = true → st.flag = false → st.subdir = none →
     st.flagSettable = false →
      process_objects_from digest now true false (PathObj.file st :: rest) acc =
        process_objects_from digest now true false rest
          { acc with errors := acc.errors ++ [Err.setAttributeError],
                     file_count := acc.file_count + 1 }) ∧
    (st.flagReadable = true → st.flag = false → st.subdir.isSome = true →
      process_objects_from digest now imm dry (PathObj.file st :: rest) acc =
        Except.error Err.genericCheckMutable) := by
  refine ⟨fun h1 => ?_, fun h1 h2 h3 h4 => ?_, fun h1 h2 h3 => ?_⟩
  · simp [process_objects_from, _process_object, file_is_immutable, h1]
  · simp [process_objects_from, _process_object, file_is_immutable,
          _check_data_files, set_flag, h1, h2, h3, h4]
  · simp [process_objects_from, _process_object, file_is_immutable,
          _check_data_files, h1, h2, h3]

/-- C4 witness: the amended statement at three concrete single-file
batches — unreadable flag (recorded, batch continues), unsettable flag
(recorded, batch continues) and precondition violation (aborts). -/
theorem c4_witness :
    (process_objects_from digest0 "t" true false [PathObj.file st_unreadable]
        initSummary =
      process_objects_from digest0 "t" true false []
        { initSummary with
          errors := initSummary.errors ++ [Err.setAttributeError],
          file_count := initSummary.file_count + 1 }) ∧
    (process_objects_from digest0 "t" true false [PathObj.file st_unsettable]
        initSummary =
      process_objects_from digest0 "t" true false []
        { initSummary with
          errors := initSummary.errors ++ [Err.setAttributeError],
          file_count := initSummary.file_count + 1 }) ∧
    (process_objects_from digest0 "t" true false [PathObj.file st_badsub]
        initSummary =
      Except.error Err.genericCheckMutable) :=
  ⟨(c4_amended_fail_soft digest0 "t" true false [] initSummary st_unreadable).1
     rfl,
   (c4_amended_fail_soft digest0 "t" true false [] initSummary st_unsettable).2.1
     rfl rfl rfl rfl,
   (c4_amended_fail_soft digest0 "t" true false [] initSummary st_badsub).2.2
     rfl rfl rfl⟩

/-- C7: for a regular file whose flag is readable, the auditor's
classification is exactly the four-case split on (has record
sub-directory, is immutable): group without flag records a
should-be-immutable error, flag without group records a
missing-sub-directory error, both runs record verification and the file
counts as entombed precisely when verification returns no errors, and
neither counts the file as unentombed. -/
theorem c7_audit_classification (digest : String → String) (now : String)
    (subdirs : List (String × List (String × DataFile))) (f : AuditFile)
    (hr : f.flagReadable = true) :
    ((subdirs.map Prod.fst).contains f.meta.name = true → f.flag = false →
      audit_file digest now subdirs f =
        Except.ok
          (FileOutcome.withErrors [AuditError.shouldBeImmutable f.meta.name])) ∧
    ((subdirs.map Prod.fst).contains f.meta.name = false → f.flag = true →
      audit_file digest now subdirs f =
        Except.ok
          (FileOutcome.withErrors
            [AuditError.missingDataSubdirectory f.meta.name])) ∧
    ((subdirs.map Prod.fst).contains f.meta.name = true → f.flag = true →
      (audit_file digest now subdirs f = Except.ok FileOutcome.entombed ↔
        _get_data_subdirectory_errors digest now subdirs f = Except.ok [])) ∧
    ((subdirs.map Prod.fst).contains f.meta.name = false → f.flag = false →
      audit_file digest now subdirs f = Except.ok FileOutcome.unentombed) := by
  refine ⟨fun h1 h2 => ?_, fun h1 h2 => ?_, fun h1 h2 => ?_, fun h1 h2 => ?_⟩
  · simp only [audit_file, audit_file_is_immutable, hr, h1, h2]; rfl
  · simp only [audit_file, audit_file_is_immutable, hr, h1, h2]; rfl
  · have hb : audit_file digest now subdirs f =
        (match _get_data_subdirectory_errors digest now subdirs f with
         | Except.error e => Except.error e
         | Except.ok es =>
           if es ≠ [] then Except.ok (FileOutcome.withErrors es)
           else Except.ok FileOutcome.entombed) := by
      simp only [audit_file, audit_file_is_immutable, hr, h1, h2]; rfl
    rw [hb]
    cases hx : _get_data_subdirectory_errors digest now subdirs f with
    | error e => simp
    | ok es => cases es with
      | nil => simp
      | cons a l => simp
  · simp only [audit_file, audit_file_is_immutable, hr, h1, h2]; rfl

/-- A concrete free audited file with no record sub-directory. -/
def f_plain : AuditFile := ⟨⟨"b.txt", "m", 1, "c"⟩, false, true, false⟩

/-- C7 witness: the classification at a concrete free file whose
directory has an unrelated record sub-directory. -/
theorem c7_witness :
    audit_file digest0 "t" [("x", [])] f_plain =
      Except.ok FileOutcome.unentombed :=
  (c7_audit_classification digest0 "t" [("x", [])] f_plain rfl).2.2.2 rfl rfl

/-- Once an error message is collected by the auditor's file loop it
stays in the accumulated error list. -/
theorem audit_files_loop_errors_mono (digest : String → String) (now : String)
    (subdirs : List (String × List (String × DataFile)))
    (fs : List AuditFile) (acc c : AuditCounts)
    (h : audit_files_loop digest now subdirs fs acc = Except.ok c)
    (e : AuditError) (he : e ∈ acc.errors) : e ∈ c.errors := by
  induction fs generalizing acc with
  | nil =>
    simp only [audit_files_loop] at h
    cases h
    exact he
  | cons f rest ih =>
    by_cases hl : f.isLink
    · simp only [audit_files_loop, hl, if_true] at h
      have h2 := ih _ h
      exact h2 he
    · simp only [audit_files_loop, hl, if_false, Bool.false_eq_true] at h
      cases hx : audit_file digest now subdirs f with
      | error err => rw [hx] at h; cases h
      | ok oc =>
        rw [hx] at h
        cases oc with
        | entombed =>
          have h2 := ih _ h
          exact h2 he
        | unentombed =>
          have h2 := ih _ h
          exact h2 he
        | withErrors es =>
          have h2 := ih _ h
          exact h2 (List.mem_append_left _ he)

/-- The auditor's file loop never touches the inaccessible-file
counter. -/
theorem audit_files_loop_inaccessible (digest : String → String)
    (now : String) (subdirs : List (String × List (String × DataFile)))
    (fs : List AuditFile) (acc c : AuditCounts)
    (h : audit_files_loop digest now subdirs fs acc = Except.ok c) :
    c.inaccessible_file_count = acc.inaccessible_file_count := by
  induction fs generalizing acc with
  | nil =>
    simp only [audit_files_loop] at h
    cases h
    rfl
  | cons f rest ih =>
    by_cases hl : f.isLink
    · simp only [audit_files_loop, hl, if_true] at h
      have h2 := ih _ h
      exact h2
    · simp only [audit_files_loop, hl, if_false, Bool.false_eq_true] at h
      cases hx : audit_file digest now subdirs f with
      | error err => rw [hx] at h; cases h
      | ok oc =>
        rw [hx] at h
        cases oc with
        | entombed =>
          have h2 := ih _ h
          exact h2
        | unentombed =>
          have h2 := ih _ h
          exact h2
        | withErrors es =>
          have h2 := ih _ h
          exact h2

/-- The auditor's directory body never touches the inaccessible-file
counter. -/
theorem audit_directory_inaccessible (digest : String → String)
    (now : String) (d : AuditDirectory) (acc c : AuditCounts)
    (h : audit_directory digest now d acc = Except.ok c) :
    c.inaccessible_file_count = acc.inaccessible_file_count := by
  unfold audit_directory at h
  by_cases hp : d.entombPresent
  · cases hL : d.hashesListing with
    | none => rw [hp] at h; simp only [if_true] at h; rw [hL] at h; cases h
    | some l =>
      rw [hp] at h
      simp only [if_true] at h
      rw [hL] at h
      have h2 := audit_files_loop_inaccessible _ _ _ _ _ _ h
      exact h2
  · simp only [hp, if_false, Bool.false_eq_true] at h
    have h2 := audit_files_loop_inaccessible _ _ _ _ _ _ h
    exact h2

/-- The auditor's walk never touches the inaccessible-file counter. -/
theorem check_files_from_inaccessible (digest : String → String)
    (now : String) (dirs : List AuditDirectory) (acc c : AuditCounts)
    (h : check_files_from digest now dirs acc = Except.ok c) :
    c.inaccessible_file_count = acc.inaccessible_file_count := by
  induction dirs generalizing acc with
  | nil =>
    simp only [check_files_from] at h
    cases h
    rfl
  | cons d rest ih =>
    simp only [check_files_from] at h
    cases hx : audit_directory digest now d acc with
    | error err => rw [hx] at h; cases h
    | ok acc1 =>
      rw [hx] at h
      have h2 := ih _ h
      have h3 := audit_directory_inaccessible _ _ _ _ _ hx
      exact h2.trans h3

/-- A concrete walked directory whose only non-directory entry is a
symbolic link named x, while the shadow data directory holds a record
sub-directory also named x: no regular file named x exists. -/
def d_c8 : AuditDirectory :=
  ⟨true, some [("x", [("x.data.1", ⟨"c", true, true, true⟩)])],
   [⟨⟨"x", "m", 1, "c"⟩, true, true, false⟩]⟩

/-- C8 counterexample: the claim says a shadow sub-directory name with
no matching regular file is reported as an orphan; in this concrete
directory no regular file exists at all (the only entry is a link named
x), yet the audit reports no error, because the code compares the
sub-directory name against all walk entries including links. -/
theorem c8_counterexample :
    check_files digest0 "t" [d_c8] =
      Except.ok ⟨1, 0, [], 0, 0, 1, 0⟩ ∧
    d_c8.files.filter (fun f => !f.isLink) = [] :=
  ⟨rfl, rfl⟩

/-- C8 amended: a shadow sub-directory name that matches no
non-directory entry of the directory (neither a regular file nor a
link) is reported as an orphan error in the audit's error list. -/
theorem c8_amended_orphans (digest : String → String) (now : String)
    (d : AuditDirectory) (acc c : AuditCounts) (s : String)
    (l : List (String × List (String × DataFile)))
    (hp : d.entombPresent = true) (hl : d.hashesListing = some l)
    (hs : s ∈ l.map Prod.fst)
    (hnf : (d.files.map (fun f => f.meta.name)).contains s = false)
    (hr : audit_directory digest now d acc = Except.ok c) :
    AuditError.orphanSubdirectory s ∈ c.errors := by
  unfold audit_directory at hr
  rw [hp] at hr
  simp only [if_true] at hr
  rw [hl] at hr
  have hmono := audit_files_loop_errors_mono _ _ _ _ _ _ hr
      (AuditError.orphanSubdirectory s)
  apply hmono
  have hf : s ∈ (l.map Prod.fst).filter
      (fun s => !((d.files.map (fun f => f.meta.name)).contains s)) :=
    List.mem_filter.mpr ⟨hs, by rw [hnf]; rfl⟩
  exact List.mem_append_right _ (List.mem_map_of_mem _ hf)

/-- A concrete walked directory with an orphan record sub-directory
named y and one free regular file named x. -/
def d_orphan : AuditDirectory :=
  ⟨true, some [("y", [])], [⟨⟨"x", "m", 1, "c"⟩, false, true, false⟩]⟩

/-- C8 witness: the amended statement at the concrete orphan
sub-directory y. -/
theorem c8_witness :
    AuditError.orphanSubdirectory "y" ∈
      (⟨1, 0, [AuditError.orphanSubdirectory "y"], 0, 0, 0, 1⟩ :
        AuditCounts).errors :=
  c8_amended_orphans digest0 "t" d_orphan initCounts
    ⟨1, 0, [AuditError.orphanSubdirectory "y"], 0, 0, 0, 1⟩ "y"
    [("y", [])] rfl rfl (by simp) rfl rfl

/-- A concrete audited file whose immutability flag cannot be read. -/
def f_unreadable : AuditFile := ⟨⟨"u", "m", 1, "c"⟩, false, false, false⟩

/-- C10: an audit that terminates normally reports zero inaccessible
files — no branch of check_files increments that counter — and a
failure to read a file's immutability flag raises GetAttributeError out
of the audit instead of being tallied. -/
theorem c10_no_inaccessible (digest : String → String) (now : String) :
    (∀ dirs c, check_files digest now dirs = Except.ok c →
      c.inaccessible_file_count = 0) ∧
    (∀ subdirs f, f.flagReadable = false →
      audit_file digest now subdirs f =
        Except.error Err.getAttributeError) := by
  constructor
  · intro dirs c h
    exact check_files_from_inaccessible digest now dirs initCounts c h
  · intro subdirs f hf
    simp only [audit_file, audit_file_is_immutable, hf]
    rfl

/-- C10 witness: a concrete terminated audit reports zero inaccessible
files, and a concrete unreadable file makes the auditor raise. -/
theorem c10_witness :
    ((⟨1, 0, [AuditError.orphanSubdirectory "y"], 0, 0, 0, 1⟩ :
        AuditCounts).inaccessible_file_count = 0) ∧
    (audit_file digest0 "t" [] f_unreadable =
      Except.error Err.getAttributeError) :=
  ⟨(c10_no_inaccessible digest0 "t").1 [d_orphan]
     ⟨1, 0, [AuditError.orphanSubdirectory "y"], 0, 0, 0, 1⟩ rfl,
   (c10_no_inaccessible digest0 "t").2 [] f_unreadable rfl⟩

/-- C5: for a file in the Tombed state whose metadata and content are
unchanged since entombment (its records hold exactly the canonical
record built at entombment time t0), rebuilding the record with the
stored checksum_time reproduces the stored record byte-for-byte, and
the auditor's verification reports zero violations, classifying the
file as entombed. -/
theorem c5_tombed_reproducible (digest : String → String) (now t0 : String)
    (f : AuditFile) (subdirs : List (String × List (String × DataFile)))
    (ht : t0 ≠ "")
    (hr : f.flagReadable = true) (hf : f.flag = true)
    (hg : (subdirs.map Prod.fst).contains f.meta.name = true)
    (hrec : List.lookup f.meta.name subdirs =
      some ((data_file_names f.meta.name).map
        (fun n =>
          (n, ⟨build_data_file_contents digest t0 f.meta none,
               true, true, true⟩))))
    (hwf : json_checksum_time (build_data_file_contents digest t0 f.meta none) =
      some t0) :
    build_data_file_contents digest now f.meta (some t0) =
      build_data_file_contents digest t0 f.meta none ∧
    _get_data_subdirectory_errors digest now subdirs f = Except.ok [] ∧
    audit_file digest now subdirs f = Except.ok FileOutcome.entombed := by
  have hbuild : build_data_file_contents digest now f.meta (some t0) =
      build_data_file_contents digest t0 f.meta none := by
    rw [build_some_eq digest now f.meta ht, build_none_eq]
  have herr : _get_data_subdirectory_errors digest now subdirs f =
      Except.ok [] := by
    unfold _get_data_subdirectory_errors
    rw [hrec, data_file_names_eq]
    simp [perm_check_loop, _get_data_file_contents, hwf, hbuild]
  have haudit : audit_file digest now subdirs f =
      Except.ok FileOutcome.entombed := by
    simp only [audit_file, audit_file_is_immutable, hr, hf, hg, herr]
    rfl
  exact ⟨hbuild, herr, haudit⟩

/-- C1: starting from the Free state (flag unset, no record
sub-directory), entombing and then un-entombing restores the Free state
exactly: both transitions report a change, and afterwards the flag is
unset, no record sub-directory exists for the file, and any remaining
shadow directory (".entomb/hashes" or ".entomb") is non-empty. -/
theorem c1_roundtrip (digest : String → String) (m : FileMeta)
    (now1 now2 : String) (k : Nat) (hd lo ed : Bool) (logs : List String)
    (hwf : json_checksum_time (build_data_file_contents digest now1 m none) =
      some now1)
    (hne : now1 ≠ "") :
    ∃ st1 ev1 st2 ev2,
      _process_object digest now1
          ⟨false, m, none, k, hd, lo, logs, ed, true, true⟩ true false =
        Except.ok (true, st1, ev1) ∧
      _process_object digest now2 st1 false false =
        Except.ok (true, st2, ev2) ∧
      st2.flag = false ∧ st2.subdir = none ∧
      (st2.hashesDirExists = true → st2.hashesEmpty = false) ∧
      (st2.entombDirExists = true → st2.entombEmpty = false) := by
  have hcr := create_data_files_spec digest now1
      ⟨true, m, none, k, hd, lo, logs, ed, true, true⟩ (Or.inl rfl) rfl
  have h1 : _process_object digest now1
      ⟨false, m, none, k, hd, lo, logs, ed, true, true⟩ true false =
      Except.ok (true,
        ⟨true, m,
         some [(m.name ++ ".data." ++ "1",
                ⟨build_data_file_contents digest now1 m none, true, true, true⟩),
               (m.name ++ ".data." ++ "2",
                ⟨build_data_file_contents digest now1 m none, true, true, true⟩),
               (m.name ++ ".data." ++ "3",
                ⟨build_data_file_contents digest now1 m none, true, true, true⟩)],
         k, true, true, logs ++ [log_entry now1 ADDED m.name], true, true, true⟩,
        [Event.setFlag true,
         Event.writeData (m.name ++ ".data." ++ "1")
           (build_data_file_contents digest now1 m none),
         Event.chmodData (m.name ++ ".data." ++ "1"),
         Event.setDataImmutable (m.name ++ ".data." ++ "1") true,
         Event.writeData (m.name ++ ".data." ++ "2")
           (build_data_file_contents digest now1 m none),
         Event.chmodData (m.name ++ ".data." ++ "2"),
         Event.setDataImmutable (m.name ++ ".data." ++ "2") true,
         Event.writeData (m.name ++ ".data." ++ "3")
           (build_data_file_contents digest now1 m none),
         Event.chmodData (m.name ++ ".data." ++ "3"),
         Event.setDataImmutable (m.name ++ ".data." ++ "3") true,
         Event.logWrite (log_entry now1 ADDED m.name)]) := by
    simp [_process_object, file_is_immutable, _check_data_files, set_flag,
          _write_to_log, hcr, data_file_names_eq]
  have hl1 : List.lookup (m.name ++ ".data." ++ "1")
      [(m.name ++ ".data." ++ "1",
        (⟨build_data_file_contents digest now1 m none, true, true, true⟩ :
          DataFile)),
       (m.name ++ ".data." ++ "2",
        ⟨build_data_file_contents digest now1 m none, true, true, true⟩),
       (m.name ++ ".data." ++ "3",
        ⟨build_data_file_contents digest now1 m none, true, true, true⟩)] =
      some ⟨build_data_file_contents digest now1 m none, true, true, true⟩ := by
    simp [List.lookup]
  have hl2 : List.lookup (m.name ++ ".data." ++ "2")
      [(m.name ++ ".data." ++ "1",
        (⟨build_data_file_contents digest now1 m none, true, true, true⟩ :
          DataFile)),
       (m.name ++ ".data." ++ "2",
        ⟨build_data_file_contents digest now1 m none, true, true, true⟩),
       (m.name ++ ".data." ++ "3",
        ⟨build_data_file_contents digest now1 m none, true, true, true⟩)] =
      some ⟨build_data_file_contents digest now1 m none, true, true, true⟩ := by
    have := lookup_const_map
      (⟨build_data_file_contents digest now1 m none, true, true, true⟩ :
        DataFile)
      [m.name ++ ".data." ++ "1", m.name ++ ".data." ++ "2",
       m.name ++ ".data." ++ "3"]
      (m.name ++ ".data." ++ "2") (by simp)
    simpa using this
  have hl3 : List.lookup (m.name ++ ".data." ++ "3")
      [(m.name ++ ".data." ++ "1",
        (⟨build_data_file_contents digest now1 m none, true, true, true⟩ :
          DataFile)),
       (m.name ++ ".data." ++ "2",
        ⟨build_data_file_contents digest now1 m none, true, true, true⟩),
       (m.name ++ ".data." ++ "3",
        ⟨build_data_file_contents digest now1 m none, true, true, true⟩)] =
      some ⟨build_data_file_contents digest now1 m none, true, true, true⟩ := by
    have := lookup_const_map
      (⟨build_data_file_contents digest now1 m none, true, true, true⟩ :
        DataFile)
      [m.name ++ ".data." ++ "1", m.name ++ ".data." ++ "2",
       m.name ++ ".data." ++ "3"]
      (m.name ++ ".data." ++ "3") (by simp)
    simpa using this
  have hexp : build_data_file_contents digest now2 m (some now1) =
      build_data_file_contents digest now1 m none := by
    rw [build_some_eq digest now2 m hne, build_none_eq]
  have hcheck : _check_data_files digest now2
      ⟨true, m,
       some [(m.name ++ ".data." ++ "1",
              ⟨build_data_file_contents digest now1 m none, true, true, true⟩),
             (m.name ++ ".data." ++ "2",
              ⟨build_data_file_contents digest now1 m none, true, true, true⟩),
             (m.name ++ ".data." ++ "3",
              ⟨build_data_file_contents digest now1 m none, true, true, true⟩)],
       k, true, true, logs ++ [log_entry now1 ADDED m.name], true, true, true⟩
      true = Except.ok () := by
    have ht1 : (toString 1 : String) = "1" := rfl
    have ht2 : (toString 2 : String) = "2" := rfl
    have ht3 : (toString 3 : String) = "3" := rfl
    simp [_check_data_files, data_file_names_eq, check_loop,
          ht1, ht2, ht3, hl1, hl2, hl3, hwf, hexp]
  cases hk : k == 0 with
  | true =>
    refine ⟨_, _,
      ⟨false, m, none, k, false, true,
       (logs ++ [log_entry now1 ADDED m.name])
         ++ [log_entry now2 REMOVED m.name], true, true, true⟩,
      [Event.setFlag false,
       Event.setDataImmutable (m.name ++ ".data." ++ "1") false,
       Event.setDataImmutable (m.name ++ ".data." ++ "2") false,
       Event.setDataImmutable (m.name ++ ".data." ++ "3") false,
       Event.removeTree, Event.logWrite (log_entry now2 REMOVED m.name)],
      h1, ?_, rfl, rfl, by simp, by simp [DirState.entombEmpty]⟩
    simp [_process_object, file_is_immutable, hcheck, set_flag,
          _delete_data_directory, _write_to_log, DirState.hashesEmpty,
          DirState.entombEmpty, hk]
  | false =>
    refine ⟨_, _,
      ⟨false, m, none, k, true, true,
       (logs ++ [log_entry now1 ADDED m.name])
         ++ [log_entry now2 REMOVED m.name], true, true, true⟩,
      [Event.setFlag false,
       Event.setDataImmutable (m.name ++ ".data." ++ "1") false,
       Event.setDataImmutable (m.name ++ ".data." ++ "2") false,
       Event.setDataImmutable (m.name ++ ".data." ++ "3") false,
       Event.removeTree, Event.logWrite (log_entry now2 REMOVED m.name)],
      h1, ?_, rfl, rfl, by simp [DirState.hashesEmpty, hk],
      by simp [DirState.entombEmpty]⟩
    simp [_process_object, file_is_immutable, hcheck, set_flag,
          _delete_data_directory, _write_to_log, DirState.hashesEmpty,
          DirState.entombEmpty, hk]

/-- C1 witness: the roundtrip at a concrete Free-state file. -/
theorem c1_witness :
    ∃ st1 ev1 st2 ev2,
      _process_object digest0 "2021-01-01T00:00:00+0000"
          ⟨false, meta0, none, 0, false, false, [], false, true, true⟩
          true false =
        Except.ok (true, st1, ev1) ∧
      _process_object digest0 "2021-01-02T00:00:00+0000" st1 false false =
        Except.ok (true, st2, ev2) ∧
      st2.flag = false ∧ st2.subdir = none ∧
      (st2.hashesDirExists = true → st2.hashesEmpty = false) ∧
      (st2.entombDirExists = true → st2.entombEmpty = false) :=
  c1_roundtrip digest0 meta0 "2021-01-01T00:00:00+0000"
    "2021-01-02T00:00:00+0000" 0 false false false [] (by rfl) (by decide)

/-- The entombment time used by the concrete Tombed-state witness. -/
def t0c : String := "2020-01-02T03:04:05+0000"

/-- A concrete audited file in the Tombed state. -/
def f_tombed : AuditFile := ⟨meta0, false, true, true⟩

/-- The shadow listing matching the concrete Tombed-state file: its
three canonical records hold the record built at time t0c. -/
def subdirs0 : List (String × List (String × DataFile)) :=
  [("a.txt", (data_file_names meta0.name).map
    (fun n =>
      (n, ⟨build_data_file_contents digest0 t0c meta0 none,
           true, true, true⟩)))]

/-- C5 witness: the Tombed-state statement at the concrete file. -/
theorem c5_witness :
    build_data_file_contents digest0 "now2" meta0 (some t0c) =
      build_data_file_contents digest0 t0c meta0 none ∧
    _get_data_subdirectory_errors digest0 "now2" subdirs0 f_tombed =
      Except.ok [] ∧
    audit_file digest0 "now2" subdirs0 f_tombed =
      Except.ok FileOutcome.entombed :=
  c5_tombed_reproducible digest0 "now2" t0c f_tombed subdirs0
    (by decide) rfl rfl rfl rfl (by rfl)

/-- C9 amended: every record built by the codec is a structured
document whose fields are exactly file, file_mtime, file_size,
checksum and checksum_time, in that order, and whose checksum value is
the file's digest prefixed with the algorithm name sha512. -/
theorem c9_amended_record_fields (digest : String → String)
    (m : FileMeta) (ct : String) :
    (data_dict digest m ct).map Prod.fst =
      ["file", "file_mtime", "file_size", "checksum", "checksum_time"] ∧
    List.lookup "checksum" (data_dict digest m ct) =
      some (Jval.str ("sha512-" ++ digest m.content)) :=
  ⟨rfl, rfl⟩

end Entomb
